import Mathlib

/-!
Verification development for the batch screenshot generator
(`scripts/generate-all-screenshots.js`).

The JavaScript source is shallowly embedded: every external effect
(file-system read, HTTP call, browser capture) is represented by the
outcome the environment hands back to the script, and each function of
the script becomes a pure Lean function of those outcomes.  State
mutation of the global `state` object becomes explicit state passing,
and the per-item calls made by `processWorkflow` are recorded in an
event trace so that call-ordering properties can be stated.
-/

set_option maxRecDepth 20000

namespace Screenshots

/-- Decidable equality for `Except` values, used by the derived instances of
the structures below. -/
instance {α β : Type} [DecidableEq α] [DecidableEq β] : DecidableEq (Except α β) := fun x y =>
  match x, y with
  | Except.ok a, Except.ok b =>
    if h : a = b then isTrue (by rw [h]) else isFalse (fun he => by cases he; exact h rfl)
  | Except.error a, Except.error b =>
    if h : a = b then isTrue (by rw [h]) else isFalse (fun he => by cases he; exact h rfl)
  | Except.ok _, Except.error _ => isFalse (fun he => by cases he)
  | Except.error _, Except.ok _ => isFalse (fun he => by cases he)

/-! ## Naming transform (`getScreenshotFilename`, lines 104-111)

The source computes
`path.basename(workflowPath, '.json').toLowerCase()
  .replace(/[^a-z0-9]+/g, '-').replace(/^-+|-+$/g, '').substring(0, 50) + '.png'`.
The regex replacement of each maximal run of non-`[a-z0-9]` characters by a
single `'-'` is embedded as: map every non-alphanumeric character to `'-'`,
then collapse adjacent `'-'` pairs. -/

/-- Character class `[a-z0-9]` of the source regex. -/
def isSlugChar (c : Char) : Bool :=
  c.isLower || c.isDigit

/-- One character of `.replace(/[^a-z0-9]+/g, '-')`: keep `[a-z0-9]`, else `'-'`. -/
def dashify (c : Char) : Char :=
  if isSlugChar c then c else '-'

/-- Collapse every run of adjacent `'-'` characters to a single `'-'`
(together with `dashify` this is exactly `.replace(/[^a-z0-9]+/g, '-')`). -/
def collapseDashes : List Char → List Char
  | [] => []
  | [c] => [c]
  | c :: d :: rest =>
    if c == '-' && d == '-' then collapseDashes (d :: rest)
    else c :: collapseDashes (d :: rest)

/-- Leading half (pattern `^-+`) of the trim regex: drop leading dashes. -/
def trimLead (l : List Char) : List Char :=
  l.dropWhile (fun c => c == '-')

/-- Trailing half (pattern `-+$`) of the trim regex: drop trailing dashes. -/
def trimTrail : List Char → List Char
  | [] => []
  | c :: rest =>
    let r := trimTrail rest
    if r.isEmpty then (if c == '-' then [] else [c]) else c :: r

/-- Splitting a character list at every occurrence of a separator character
(JavaScript's `String.prototype.split` with a single-character separator). -/
def splitOnChar (sep : Char) : List Char → List (List Char)
  | [] => [[]]
  | c :: rest =>
    let r := splitOnChar sep rest
    if c == sep then [] :: r
    else
      match r with
      | [] => [[c]]
      | g :: gs => (c :: g) :: gs

/-- A path split on the POSIX separator `'/'` (`workflowPath.split(path.sep)`). -/
def splitPath (p : String) : List String :=
  (splitOnChar '/' p.data).map String.mk

/-- Node's `path.basename(p)` (POSIX): last non-empty `/`-separated segment. -/
def jsBasename (p : String) : String :=
  match ((splitPath p).filter (fun s => !(s == ""))).getLast? with
  | some b => b
  | none => if p == "" then "" else "/"

/-- Node's `path.basename(p, '.json')`: the basename with a proper `.json`
suffix removed. -/
def basenameNoJson (p : String) : String :=
  let b := (jsBasename p).data
  if decide (5 < b.length) && (b.drop (b.length - 5) == ['.', 'j', 's', 'o', 'n']) then
    String.mk (b.take (b.length - 5))
  else
    String.mk b

/-- The canonical stem of the screenshot filename: the value of the source's
`basename.toLowerCase().replace(/[^a-z0-9]+/g,'-').replace(/^-+|-+$/g,'').substring(0, 50)`
as a character list. -/
def slugStem (p : String) : List Char :=
  (trimTrail (trimLead (collapseDashes
    (((basenameNoJson p).data.map Char.toLower).map dashify)))).take 50

/-- `getScreenshotFilename` (lines 104-111): canonical stem plus `.png`. -/
def getScreenshotFilename (p : String) : String :=
  String.mk (slugStem p) ++ ".png"

/-! ## Category classifier (`getCategory`, lines 116-126) -/

/-- The loop test `dir.includes('_') || dir === 'devops'`. -/
def isCategoryDir (dir : String) : Bool :=
  dir.data.contains '_' || dir == "devops"

/-- The source's downward loop `for (let i = parts.length - 2; i >= 0; i--)`,
expressed over the reversed list of candidate segments. -/
def scanCategory : List String → String
  | [] => "Other_Integrations_and_Use_Cases"
  | d :: rest => if isCategoryDir d then d else scanCategory rest

/-- `getCategory` on the split path segments: scan all segments but the last,
from the one nearest the file upward. -/
def getCategoryParts (parts : List String) : String :=
  scanCategory parts.dropLast.reverse

/-- `getCategory` (lines 116-126): split on the path separator and scan. -/
def getCategory (workflowPath : String) : String :=
  getCategoryParts (splitPath workflowPath)

/-! ## Existence check (`screenshotExists`, lines 131-148)

The GitHub `GET .../contents/...` call is embedded as the answer the store
gives: an HTTP status, or a transport-level failure.  The axios option
`validateStatus: (status) => status === 200 || status === 404` makes every
other status an exception, which the surrounding `try` turns into `false`. -/

/-- Possible outcomes of the store lookup made by `screenshotExists`. -/
inductive StoreAnswer where
  | status (code : Nat)
  | transportError
deriving Repr, DecidableEq

/-- Result of one `screenshotExists` call: the URL that was consulted, if the
store was consulted at all, and the returned boolean. -/
structure ExistsProbe where
  consultedUrl : Option String
  result : Bool
deriving Repr, DecidableEq

/-- The URL `https://api.github.com/repos/{repo}/contents/screenshots/{category}/{filename}`
built on line 135. -/
def contentsUrl (repo category filename : String) : String :=
  "https://api.github.com/repos/" ++ repo ++ "/contents/screenshots/" ++ category ++ "/" ++ filename

/-- `screenshotExists` (lines 131-148). -/
def screenshotExists (skipExisting : Bool) (repo category filename : String)
    (answer : StoreAnswer) : ExistsProbe :=
  if !skipExisting then { consultedUrl := none, result := false }
  else
    let url := contentsUrl repo category filename
    match answer with
    | StoreAnswer.status code =>
      if code == 200 || code == 404 then { consultedUrl := some url, result := code == 200 }
      else { consultedUrl := some url, result := false }
    | StoreAnswer.transportError => { consultedUrl := some url, result := false }

/-- Whether a store answer is a plain HTTP 200. -/
def answersOk200 : StoreAnswer → Bool
  | StoreAnswer.status code => code == 200
  | StoreAnswer.transportError => false

/-! ## Workflow importer (`importWorkflow`, lines 153-211)

The `POST /api/v1/workflows` call is embedded as the response the engine
gives back: either a reachable response (axios resolves for every status
below 500 because of `validateStatus: (status) => status < 500`, and rejects
with `error.response` set for 500 and above), or a network failure in which
`error.response` is absent.  The id extraction
`response.data.id || response.data.data?.id` treats an empty string as
absent, mirroring JavaScript falsiness. -/

/-- The part of the engine's response inspected by `importWorkflow`. -/
structure ImportResponse where
  status : Nat
  body : String
  idField : Option String
  nestedId : Option String
deriving Repr, DecidableEq

/-- Outcome of the HTTP POST made by `importWorkflow`. -/
inductive ImportAnswer where
  | response (r : ImportResponse)
  | networkFailure (msg : String)
deriving Repr, DecidableEq

/-- JavaScript truthiness for a string field: `undefined` and `""` are falsy. -/
def truthy : Option String → Option String
  | some s => if s == "" then none else some s
  | none => none

/-- `response.data.id || response.data.data?.id` of line 194. -/
def truthyId (r : ImportResponse) : Option String :=
  match truthy r.idField with
  | some s => some s
  | none => truthy r.nestedId

/-- Message thrown on line 191 and re-wrapped on line 209. -/
def importRejectedMsg (status : Nat) (body : String) : String :=
  "Failed to import workflow: API returned " ++ toString status ++ ": " ++ body

/-- Message thrown on line 197 and re-wrapped on line 209. -/
def importNoIdMsg (body : String) : String :=
  "Failed to import workflow: No workflow ID in response: " ++ body

/-- Message produced on line 207 when axios rejects with a response attached. -/
def importEngineErrorMsg (status : Nat) (body : String) : String :=
  "Failed to import workflow: " ++ toString status ++ " - " ++ body

/-- `importWorkflow` (lines 153-211): either the workflow id, or the error
message of the exception it throws. -/
def importWorkflow (answer : ImportAnswer) : Except String String :=
  match answer with
  | ImportAnswer.networkFailure msg => Except.error ("Failed to import workflow: " ++ msg)
  | ImportAnswer.response r =>
    if 500 ≤ r.status then Except.error (importEngineErrorMsg r.status r.body)
    else if 400 ≤ r.status then Except.error (importRejectedMsg r.status r.body)
    else
      match truthyId r with
      | some workflowId => Except.ok workflowId
      | none => Except.error (importNoIdMsg r.body)

/-! ## Publisher (`uploadToGitHub`, lines 407-457)

The initial `GET` for the destination path either yields a version token
(`sha`) or fails (404 or transport), in which case `sha` stays `null`; the
`PUT` either succeeds or throws.  Both outcomes are part of the embedded
environment. -/

/-- The JSON payload sent by the `PUT` on lines 430-439. -/
structure PutPayload where
  message : String
  content : String
  branch : String
  sha : Option String
deriving Repr, DecidableEq

/-- What one `uploadToGitHub` call does: the URL it reads, the URL and payload
it writes, and its result (public URL or thrown error message). -/
structure UploadCall where
  getUrl : String
  putUrl : String
  payload : PutPayload
  result : Except String String
deriving Repr, DecidableEq

/-- `uploadToGitHub` (lines 407-457). -/
def uploadToGitHub (repo category filename base64Content : String)
    (shaAnswer : Option String) (putResult : Except String Unit) : UploadCall :=
  let filePath := "screenshots/" ++ category ++ "/" ++ filename
  let url := "https://api.github.com/repos/" ++ repo ++ "/contents/" ++ filePath
  let payload : PutPayload :=
    match shaAnswer with
    | some s =>
      { message := "Update screenshot: " ++ filename, content := base64Content,
        branch := "main", sha := some s }
    | none =>
      { message := "Add screenshot: " ++ filename, content := base64Content,
        branch := "main", sha := none }
  match putResult with
  | Except.error m =>
    { getUrl := url, putUrl := url, payload := payload,
      result := Except.error ("GitHub upload failed: " ++ m) }
  | Except.ok _ =>
    { getUrl := url, putUrl := url, payload := payload,
      result := Except.ok ("https://raw.githubusercontent.com/" ++ repo ++ "/main/" ++ filePath) }

/-! ## Orchestrator (`processWorkflow` lines 462-531, `main` lines 536-640)

The mutable global `state` object becomes an explicit `St` value.  Each
external call `processWorkflow` makes is recorded as an `Event`, so that the
claims about which calls happen, how often, and in which order can be stated
over the resulting trace.  One `ItemEnv` bundles the environment's responses
for one item: the boolean `screenshotExists` produced, the outcome of
reading and parsing the JSON file, and the outcomes of import, capture,
local save, and upload. -/

/-- The global `state` object (lines 58-66). -/
structure St where
  total : Nat
  processed : Nat
  succeeded : Nat
  failed : Nat
  skipped : Nat
  errors : List (String × String)
deriving Repr, DecidableEq

/-- The entry pushed to `results` on success (lines 508-513). -/
structure ResRec where
  workflow : String
  category : String
  filename : String
  url : String
deriving Repr, DecidableEq

/-- External calls made while processing one item. -/
inductive Event where
  | existsCheck (category filename : String)
  | importCall
  | screenshotCall (workflowId : String)
  | uploadCall (category filename : String)
  | deleteCall (workflowId : String)
deriving Repr, DecidableEq

/-- Environment responses for one item of the batch. -/
structure ItemEnv where
  workflowPath : String
  existsResult : Bool
  parseResult : Except String Unit
  importResult : Except String String
  captureResult : Except String Unit
  saveResult : Except String Unit
  uploadResult : Except String String
deriving Repr, DecidableEq

/-- The `catch` block of `processWorkflow` (lines 514-521): count the failure
and record the (item, error message) pair. -/
def failSt (st : St) (workflowName msg : String) : St :=
  { st with failed := st.failed + 1, errors := st.errors ++ [(workflowName, msg)] }

/-- The `finally` block's `state.processed++` (line 528). -/
def finishSt (st : St) : St :=
  { st with processed := st.processed + 1 }

/-- `processWorkflow` (lines 462-531): new state, trace of external calls,
and the result record (`null` on skip or failure). -/
def processWorkflow (env : ItemEnv) (st : St) : St × List Event × Option ResRec :=
  let workflowName := jsBasename env.workflowPath
  let category := getCategory env.workflowPath
  let filename := getScreenshotFilename env.workflowPath
  if env.existsResult then
    ({ st with skipped := st.skipped + 1 }, [Event.existsCheck category filename], none)
  else
    match env.parseResult with
    | Except.error msg =>
      (finishSt (failSt st workflowName msg), [Event.existsCheck category filename], none)
    | Except.ok _ =>
      match env.importResult with
      | Except.error msg =>
        (finishSt (failSt st workflowName msg),
         [Event.existsCheck category filename, Event.importCall], none)
      | Except.ok workflowId =>
        match env.captureResult with
        | Except.error msg =>
          (finishSt (failSt st workflowName msg),
           [Event.existsCheck category filename, Event.importCall,
            Event.screenshotCall workflowId, Event.deleteCall workflowId], none)
        | Except.ok _ =>
          match env.saveResult with
          | Except.error msg =>
            (finishSt (failSt st workflowName msg),
             [Event.existsCheck category filename, Event.importCall,
              Event.screenshotCall workflowId, Event.deleteCall workflowId], none)
          | Except.ok _ =>
            match env.uploadResult with
            | Except.error msg =>
              (finishSt (failSt st workflowName msg),
               [Event.existsCheck category filename, Event.importCall,
                Event.screenshotCall workflowId, Event.uploadCall category filename,
                Event.deleteCall workflowId], none)
            | Except.ok url =>
              (finishSt { st with succeeded := st.succeeded + 1 },
               [Event.existsCheck category filename, Event.importCall,
                Event.screenshotCall workflowId, Event.uploadCall category filename,
                Event.deleteCall workflowId],
               some { workflow := workflowName, category := category,
                      filename := filename, url := url })

/-- The first error the item's pipeline stages produce, if any (the exception
that reaches the `catch` block of `processWorkflow` when the item was not
skipped). -/
def itemError (env : ItemEnv) : Option String :=
  match env.parseResult with
  | Except.error m => some m
  | Except.ok _ =>
    match env.importResult with
    | Except.error m => some m
    | Except.ok _ =>
      match env.captureResult with
      | Except.error m => some m
      | Except.ok _ =>
        match env.saveResult with
        | Except.error m => some m
        | Except.ok _ =>
          match env.uploadResult with
          | Except.error m => some m
          | Except.ok _ => none

/-- Prepend an optional result record (the `if (result) results.push(result)`
of lines 594-596, expressed persistently). -/
def optCons : Option ResRec → List ResRec → List ResRec
  | some r, l => r :: l
  | none, l => l

/-- The `for` loop of `main` (lines 590-602): process the items strictly in
order, threading the state and concatenating the traces. -/
def runItems : List ItemEnv → St → St × List Event × List ResRec
  | [], st => (st, [], [])
  | e :: rest, st =>
    let step := processWorkflow e st
    let cont := runItems rest step.1
    (cont.1, step.2.1 ++ cont.2.1, optCons step.2.2 cont.2.2)

/-- `state` at the start of a run, after `state.total = workflowFiles.length`
(line 563). -/
def initSt (total : Nat) : St :=
  { total := total, processed := 0, succeeded := 0, failed := 0, skipped := 0, errors := [] }

/-- The aggregate block written to `screenshot-results.json` (lines 622-632). -/
structure RunStats where
  total : Nat
  succeeded : Nat
  failed : Nat
  skipped : Nat
deriving Repr, DecidableEq

/-- The report document written at run end. -/
structure Report where
  stats : RunStats
  screenshots : List ResRec
  errors : List (String × String)
deriving Repr, DecidableEq

/-- `main` (lines 536-640) after configuration validation: set `state.total`,
return early without writing a report when no items were discovered
(lines 566-569), otherwise process every item and write the report
(lines 620-632).  `none` means no report file was written. -/
def mainRun (envs : List ItemEnv) : Option Report :=
  if envs.length == 0 then none
  else
    let fin := runItems envs (initSt envs.length)
    some { stats := { total := fin.1.total, succeeded := fin.1.succeeded,
                      failed := fin.1.failed, skipped := fin.1.skipped },
           screenshots := fin.2.2,
           errors := fin.1.errors }

/-! ## Shape predicates for the naming transform -/

/-- Characters allowed in a canonical stem: `[a-z0-9]` or `'-'`. -/
def goodChar (c : Char) : Bool :=
  isSlugChar c || c == '-'

/-- A character list that does not start with `'-'`. -/
def noLead (l : List Char) : Bool :=
  !(l.head? == some '-')

/-- A character list with no two adjacent `'-'` characters. -/
def noDD : List Char → Bool
  | c :: d :: rest => !(c == '-' && d == '-') && noDD (d :: rest)
  | _ => true

theorem goodChar_dashify (c : Char) : goodChar (dashify c) = true := by
  by_cases h : isSlugChar c = true <;> simp [dashify, goodChar, h]

theorem noDD_cons_cons (c d : Char) (l : List Char) :
    noDD (c :: d :: l) = (!(c == '-' && d == '-') && noDD (d :: l)) := rfl

theorem noDD_tail (c : Char) (l : List Char) (h : noDD (c :: l) = true) : noDD l = true := by
  cases l with
  | nil => rfl
  | cons d r =>
    rw [noDD_cons_cons] at h
    exact (Bool.and_eq_true_iff.mp h).2

theorem head?_collapseDashes (l : List Char) : (collapseDashes l).head? = l.head? := by
  induction l with
  | nil => rfl
  | cons c tl ih =>
    cases tl with
    | nil => rfl
    | cons d rest =>
      by_cases h : (c == '-' && d == '-') = true
      · have hc : c = '-' := by
          have := (Bool.and_eq_true_iff.mp h).1
          exact eq_of_beq this
        have hd : d = '-' := by
          have := (Bool.and_eq_true_iff.mp h).2
          exact eq_of_beq this
        simp only [collapseDashes, h, if_true]
        rw [ih]
        simp [hc, hd]
      · simp only [collapseDashes, h, if_false]
        rfl

theorem noDD_collapseDashes (l : List Char) : noDD (collapseDashes l) = true := by
  induction l with
  | nil => rfl
  | cons c tl ih =>
    cases tl with
    | nil => rfl
    | cons d rest =>
      by_cases h : (c == '-' && d == '-') = true
      · simpa only [collapseDashes, h, if_true] using ih
      · have hf : (c == '-' && d == '-') = false := Bool.eq_false_iff.mpr h
        have hstep : collapseDashes (c :: d :: rest) = c :: collapseDashes (d :: rest) := by
          simp [collapseDashes, hf]
        rw [hstep]
        cases hcd : collapseDashes (d :: rest) with
        | nil => rfl
        | cons x xs =>
          have hx : x = d := by
            have hh := head?_collapseDashes (d :: rest)
            rw [hcd] at hh
            exact Option.some.inj hh
          rw [noDD_cons_cons]
          refine Bool.and_eq_true_iff.mpr ⟨?_, by rw [← hcd]; exact ih⟩
          rw [hx, hf]
          rfl

theorem all_collapseDashes (p : Char → Bool) (l : List Char) (h : l.all p = true) :
    (collapseDashes l).all p = true := by
  induction l with
  | nil => rfl
  | cons c tl ih =>
    cases tl with
    | nil => exact h
    | cons d rest =>
      have hc : p c = true := (Bool.and_eq_true_iff.mp h).1
      have htl : (d :: rest).all p = true := (Bool.and_eq_true_iff.mp h).2
      by_cases hcd : (c == '-' && d == '-') = true
      · simpa only [collapseDashes, hcd, if_true] using ih htl
      · simp only [collapseDashes, hcd, if_false, List.all_cons]
        exact Bool.and_eq_true_iff.mpr ⟨hc, ih htl⟩

theorem noDD_append_left (a b : List Char) (h : noDD (a ++ b) = true) : noDD a = true := by
  induction a with
  | nil => rfl
  | cons c a' ih =>
    cases a' with
    | nil => rfl
    | cons d a'' =>
      rw [List.cons_append, List.cons_append, noDD_cons_cons] at h
      have h1 := (Bool.and_eq_true_iff.mp h).1
      have h2 := (Bool.and_eq_true_iff.mp h).2
      rw [noDD_cons_cons]
      exact Bool.and_eq_true_iff.mpr ⟨h1, ih (by simpa using h2)⟩

theorem noDD_append_right (a b : List Char) (h : noDD (a ++ b) = true) : noDD b = true := by
  induction a with
  | nil => exact h
  | cons c a' ih =>
    exact ih (noDD_tail _ _ (by simpa using h))

theorem noLead_append_left (a b : List Char) (h : noLead (a ++ b) = true) : noLead a = true := by
  cases a with
  | nil => rfl
  | cons c a' => simpa [noLead] using h

theorem noLead_trimLead (l : List Char) : noLead (trimLead l) = true := by
  induction l with
  | nil => rfl
  | cons c tl ih =>
    by_cases h : (c == '-') = true
    · simpa [trimLead, List.dropWhile_cons, h] using ih
    · simp [trimLead, List.dropWhile_cons, h, noLead]

theorem trimTrail_append (l : List Char) : ∃ t, trimTrail l ++ t = l := by
  induction l with
  | nil => exact ⟨[], rfl⟩
  | cons c tl ih =>
    obtain ⟨t, ht⟩ := ih
    by_cases hr : (trimTrail tl).isEmpty = true
    · have htl : trimTrail tl = [] := by
        cases hx : trimTrail tl with
        | nil => rfl
        | cons y ys => rw [hx] at hr; simp [List.isEmpty] at hr
      by_cases hc : (c == '-') = true
      · refine ⟨c :: tl, ?_⟩
        simp [trimTrail, htl, hc]
      · refine ⟨tl, ?_⟩
        simp [trimTrail, htl, hc]
    · refine ⟨t, ?_⟩
      have : trimTrail (c :: tl) = c :: trimTrail tl := by
        simp only [trimTrail]
        rw [if_neg (by simpa using hr)]
      rw [this, List.cons_append, ht]

/-- Shape of the canonical stem produced from any character list: at most 50
characters, only `[a-z0-9-]`, no leading dash, no adjacent dashes. -/
theorem slug_shape (l : List Char) :
    ((trimTrail (trimLead (collapseDashes (l.map dashify)))).take 50).length ≤ 50
    ∧ ((trimTrail (trimLead (collapseDashes (l.map dashify)))).take 50).all goodChar = true
    ∧ noLead ((trimTrail (trimLead (collapseDashes (l.map dashify)))).take 50) = true
    ∧ noDD ((trimTrail (trimLead (collapseDashes (l.map dashify)))).take 50) = true := by
  have hmAll : (l.map dashify).all goodChar = true := by
    rw [List.all_map]
    exact List.all_eq_true.mpr fun x _ => goodChar_dashify x
  have hA_all : (collapseDashes (l.map dashify)).all goodChar = true :=
    all_collapseDashes _ _ hmAll
  have hA_dd : noDD (collapseDashes (l.map dashify)) = true :=
    noDD_collapseDashes _
  have hsplit1 :
      (collapseDashes (l.map dashify)).takeWhile (fun c => c == '-')
        ++ trimLead (collapseDashes (l.map dashify)) = collapseDashes (l.map dashify) :=
    List.takeWhile_append_dropWhile _ _
  have hB_all : (trimLead (collapseDashes (l.map dashify))).all goodChar = true := by
    rw [← hsplit1, List.all_append] at hA_all
    exact (Bool.and_eq_true_iff.mp hA_all).2
  have hB_dd : noDD (trimLead (collapseDashes (l.map dashify))) = true := by
    have h' : noDD ((collapseDashes (l.map dashify)).takeWhile (fun c => c == '-')
        ++ trimLead (collapseDashes (l.map dashify))) = true := by
      rw [hsplit1]
      exact hA_dd
    exact noDD_append_right _ _ h'
  have hB_lead : noLead (trimLead (collapseDashes (l.map dashify))) = true :=
    noLead_trimLead _
  obtain ⟨t, ht⟩ := trimTrail_append (trimLead (collapseDashes (l.map dashify)))
  have hC_all : (trimTrail (trimLead (collapseDashes (l.map dashify)))).all goodChar = true := by
    rw [← ht, List.all_append] at hB_all
    exact (Bool.and_eq_true_iff.mp hB_all).1
  have hC_dd : noDD (trimTrail (trimLead (collapseDashes (l.map dashify)))) = true := by
    refine noDD_append_left _ t ?_
    rw [ht]
    exact hB_dd
  have hC_lead : noLead (trimTrail (trimLead (collapseDashes (l.map dashify)))) = true := by
    refine noLead_append_left _ t ?_
    rw [ht]
    exact hB_lead
  have hsplit2 := List.take_append_drop 50 (trimTrail (trimLead (collapseDashes (l.map dashify))))
  refine ⟨?_, ?_, ?_, ?_⟩
  · rw [List.length_take]
    exact Nat.min_le_left _ _
  · rw [← hsplit2, List.all_append] at hC_all
    exact (Bool.and_eq_true_iff.mp hC_all).1
  · refine noLead_append_left _ (List.drop 50 (trimTrail (trimLead (collapseDashes (l.map dashify))))) ?_
    rw [hsplit2]
    exact hC_lead
  · refine noDD_append_left _ (List.drop 50 (trimTrail (trimLead (collapseDashes (l.map dashify))))) ?_
    rw [hsplit2]
    exact hC_dd

/-- C3 counterexample: the naming transform is not idempotent (`"a"` maps to
`"a.png"`, which maps to `"a-png.png"`), its full output can reach 54
characters (above the configured maximum of 50), and truncation at 50 can
leave a trailing hyphen in the canonical stem. -/
theorem getScreenshotFilename_claim_counterexample :
    getScreenshotFilename (getScreenshotFilename "a") ≠ getScreenshotFilename "a"
    ∧ 50 < (getScreenshotFilename (String.mk (List.replicate 60 'a'))).length
    ∧ (getScreenshotFilename (String.mk (List.replicate 49 'a' ++ ['-', 'b']))).data
        = List.replicate 49 'a' ++ ['-', '.', 'p', 'n', 'g'] := by
  refine ⟨by decide, by decide, by decide⟩

/-- C3 (amended): the naming transform is deterministic (it is a pure
function of its input); its canonical stem — the output minus the fixed
`.png` suffix — never exceeds 50 characters and contains only lowercase
letters, digits, and hyphens, with no repeated and no leading hyphen
(a trailing hyphen can survive the final truncation); the full output is
the stem plus four characters, hence at most 54; but the transform is not
idempotent, because the appended `.png` is re-slugged by a second
application. -/
theorem getScreenshotFilename_amended (p : String) :
    (slugStem p).length ≤ 50
    ∧ (slugStem p).all goodChar = true
    ∧ noLead (slugStem p) = true
    ∧ noDD (slugStem p) = true
    ∧ getScreenshotFilename p = String.mk (slugStem p) ++ ".png"
    ∧ (getScreenshotFilename p).length = (slugStem p).length + 4 := by
  obtain ⟨h1, h2, h3, h4⟩ := slug_shape ((basenameNoJson p).data.map Char.toLower)
  refine ⟨h1, h2, h3, h4, rfl, ?_⟩
  show (String.mk (slugStem p) ++ ".png").length = (slugStem p).length + 4
  rw [String.length_append]
  rfl

/-- The downward scan of `getCategory` returns the first match in its scan
order, i.e. `List.find?` over the scanned segments. -/
theorem scanCategory_eq_find (l : List String) :
    scanCategory l = (l.find? isCategoryDir).getD "Other_Integrations_and_Use_Cases" := by
  induction l with
  | nil => rfl
  | cons d rest ih =>
    by_cases h : isCategoryDir d = true
    · simp [scanCategory, List.find?, h]
    · have hf : isCategoryDir d = false := Bool.eq_false_iff.mpr h
      simp [scanCategory, List.find?, hf, ih]

/-- C10: `getCategory` never examines the final path segment: the category of
`dirs ++ [file]` is independent of `file`, and equals the match of the
category predicate (underscore, or the literal `devops`) on the directory
segment closest to the file, defaulting to the catch-all literal; in
particular an underscore in the file name alone never selects a category. -/
theorem getCategory_ignores_filename (dirs : List String) (f g : String) :
    getCategoryParts (dirs ++ [f]) = getCategoryParts (dirs ++ [g])
    ∧ getCategoryParts (dirs ++ [f])
        = (dirs.reverse.find? isCategoryDir).getD "Other_Integrations_and_Use_Cases"
    ∧ getCategory "Slack/my_file.json" = "Other_Integrations_and_Use_Cases"
    ∧ getCategory "x/Gmail_and_Email_Automation/a.json" = "Gmail_and_Email_Automation"
    ∧ getCategory "a/devops/b.json" = "devops" := by
  have hdrop : ∀ (h : String), (dirs ++ [h]).dropLast = dirs := by
    intro h
    exact List.dropLast_concat
  refine ⟨?_, ?_, by decide, by decide, by decide⟩
  · unfold getCategoryParts
    rw [hdrop f, hdrop g]
  · unfold getCategoryParts
    rw [hdrop f]
    exact scanCategory_eq_find dirs.reverse

/-- C7: `screenshotExists` returns true exactly when the skip-existing toggle
is on and the store answers HTTP 200 for the expected path; a 404 and any
transport or out-of-range status yield false; and the store is consulted —
at the expected `(category, name)` URL — exactly when the toggle is on. -/
theorem screenshotExists_policy (skipExisting : Bool) (repo category filename : String)
    (answer : StoreAnswer) :
    (screenshotExists skipExisting repo category filename answer).result
      = (skipExisting && answersOk200 answer)
    ∧ (screenshotExists skipExisting repo category filename answer).consultedUrl
      = (if skipExisting then some (contentsUrl repo category filename) else none) := by
  cases skipExisting with
  | false => simp [screenshotExists]
  | true =>
    cases answer with
    | transportError => simp [screenshotExists, answersOk200]
    | status code =>
      by_cases h : (code == 200 || code == 404) = true
      · simp [screenshotExists, answersOk200, h]
      · have hf : (code == 200 || code == 404) = false := Bool.eq_false_iff.mpr h
        have h200 : (code == 200) = false := by
          cases hx : (code == 200) with
          | false => rfl
          | true => rw [hx] at hf; simp at hf
        simp [screenshotExists, answersOk200, hf, h200]

/-- C9: `uploadToGitHub` builds its payload from the version token the
destination path reported — the `sha` field carries exactly that token when
one is present (an update, with the update commit message) and is absent
otherwise (a create, with the add commit message) — and on a successful put
it returns the stable raw-content URL mirroring the destination path used
for the write. -/
theorem uploadToGitHub_semantics (repo category filename content : String)
    (shaAnswer : Option String) (putResult : Except String Unit)
    (h : putResult = Except.ok ()) :
    (uploadToGitHub repo category filename content shaAnswer putResult).payload.sha = shaAnswer
    ∧ (uploadToGitHub repo category filename content shaAnswer putResult).payload.branch = "main"
    ∧ (uploadToGitHub repo category filename content shaAnswer putResult).payload.content = content
    ∧ (uploadToGitHub repo category filename content shaAnswer putResult).payload.message
        = (match shaAnswer with
           | some _ => "Update screenshot: " ++ filename
           | none => "Add screenshot: " ++ filename)
    ∧ (uploadToGitHub repo category filename content shaAnswer putResult).result
        = Except.ok ("https://raw.githubusercontent.com/" ++ repo ++ "/main/"
            ++ ("screenshots/" ++ category ++ "/" ++ filename))
    ∧ (uploadToGitHub repo category filename content shaAnswer putResult).putUrl
        = "https://api.github.com/repos/" ++ repo ++ "/contents/"
            ++ ("screenshots/" ++ category ++ "/" ++ filename)
    ∧ (uploadToGitHub repo category filename content shaAnswer putResult).getUrl
        = (uploadToGitHub repo category filename content shaAnswer putResult).putUrl := by
  subst h
  cases shaAnswer with
  | some s => simp [uploadToGitHub]
  | none => simp [uploadToGitHub]

/-- Witness for `uploadToGitHub_semantics` at a concrete call. -/
theorem uploadToGitHub_semantics_witness :
    (uploadToGitHub "o/r" "Slack" "a.png" "Qg==" (some "abc") (Except.ok ())).payload.sha
      = some "abc" :=
  (uploadToGitHub_semantics "o/r" "Slack" "a.png" "Qg==" (some "abc") (Except.ok ()) rfl).1

/-! ## Substring occurrence, for statements about error-message contents -/

/-- Whether the first list is an initial segment of the second. -/
def isPre : List Char → List Char → Bool
  | [], _ => true
  | _ :: _, [] => false
  | a :: as, b :: bs => a == b && isPre as bs

/-- Whether the first list occurs contiguously inside the second. -/
def containsSub (n : List Char) : List Char → Bool
  | [] => n.isEmpty
  | c :: rest => isPre n (c :: rest) || containsSub n rest

theorem isPre_self_append (n t : List Char) : isPre n (n ++ t) = true := by
  induction n with
  | nil => rfl
  | cons a as ih => simp [isPre, ih]

theorem containsSub_self_append (n t : List Char) : containsSub n (n ++ t) = true := by
  cases n with
  | nil =>
    cases t with
    | nil => rfl
    | cons c r => simp [containsSub, isPre]
  | cons a as =>
    simp only [List.cons_append, containsSub, Bool.or_eq_true]
    left
    exact isPre_self_append (a :: as) t

theorem containsSub_append_left (n a h : List Char) (hc : containsSub n h = true) :
    containsSub n (a ++ h) = true := by
  induction a with
  | nil => exact hc
  | cons x a' ih => simp [containsSub, ih]

theorem containsSub_self (n : List Char) : containsSub n n = true := by
  have h := containsSub_self_append n []
  rwa [List.append_nil] at h

theorem importRejectedMsg_data (s : Nat) (b : String) :
    (importRejectedMsg s b).data
      = "Failed to import workflow: API returned ".data
        ++ ((toString s).data ++ (": ".data ++ b.data)) := by
  simp [importRejectedMsg, String.data_append, List.append_assoc]

theorem importNoIdMsg_data (b : String) :
    (importNoIdMsg b).data
      = "Failed to import workflow: No workflow ID in response: ".data ++ b.data := by
  simp [importNoIdMsg, String.data_append]

/-- The two item-level import failures carry distinct messages for every
status and body. -/
theorem importMsgs_distinct (s : Nat) (b1 b2 : String) :
    importRejectedMsg s b1 ≠ importNoIdMsg b2 := by
  intro heq
  have hdata : (importRejectedMsg s b1).data = (importNoIdMsg b2).data := by rw [heq]
  rw [importRejectedMsg_data, importNoIdMsg_data] at hdata
  have hsplit1 : "Failed to import workflow: API returned ".data
      = "Failed to import workflow: ".data ++ ('A' :: "PI returned ".data) := by decide
  have hsplit2 : "Failed to import workflow: No workflow ID in response: ".data
      = "Failed to import workflow: ".data ++ ('N' :: "o workflow ID in response: ".data) := by
    decide
  rw [hsplit1, hsplit2] at hdata
  simp at hdata

/-- C8 counterexample: for a successful-looking response (status 200) with no
identifier, the error message contains the response body but not the
upstream status, contradicting the claim that both failure messages include
status and body. -/
theorem importWorkflow_claim_counterexample :
    importWorkflow (ImportAnswer.response
        { status := 200, body := "{}", idField := none, nestedId := none })
      = Except.error "Failed to import workflow: No workflow ID in response: {}"
    ∧ containsSub "200".data
        ("Failed to import workflow: No workflow ID in response: {}").data = false := by
  refine ⟨by decide, by decide⟩

/-- C8 (amended): `importWorkflow` fails with distinct, diagnosable errors
in both cases — a 4xx rejection produces a message containing the upstream
status and the response body, and a successful-looking response without an
identifier produces a different message containing the response body (but
not, in general, the status). -/
theorem importWorkflow_errors_amended (r1 r2 : ImportResponse)
    (h1 : 400 ≤ r1.status) (h2 : r1.status < 500)
    (h3 : r2.status < 400) (h4 : truthyId r2 = none) :
    importWorkflow (ImportAnswer.response r1) = Except.error (importRejectedMsg r1.status r1.body)
    ∧ containsSub (toString r1.status).data (importRejectedMsg r1.status r1.body).data = true
    ∧ containsSub r1.body.data (importRejectedMsg r1.status r1.body).data = true
    ∧ importWorkflow (ImportAnswer.response r2) = Except.error (importNoIdMsg r2.body)
    ∧ containsSub r2.body.data (importNoIdMsg r2.body).data = true
    ∧ importRejectedMsg r1.status r1.body ≠ importNoIdMsg r2.body := by
  have hn500 : ¬ 500 ≤ r1.status := by omega
  have hn500b : ¬ 500 ≤ r2.status := by omega
  have hn400b : ¬ 400 ≤ r2.status := by omega
  refine ⟨?_, ?_, ?_, ?_, ?_, importMsgs_distinct r1.status r1.body r2.body⟩
  · simp [importWorkflow, hn500, h1]
  · rw [importRejectedMsg_data]
    exact containsSub_append_left _ _ _ (containsSub_self_append _ _)
  · have hshape : (importRejectedMsg r1.status r1.body).data
        = (("Failed to import workflow: API returned ".data ++ (toString r1.status).data)
            ++ ": ".data) ++ r1.body.data := by
      simp [importRejectedMsg, String.data_append]
    rw [hshape]
    exact containsSub_append_left _ _ _ (containsSub_self r1.body.data)
  · simp [importWorkflow, hn500b, hn400b, h4]
  · rw [importNoIdMsg_data]
    exact containsSub_append_left _ _ _ (containsSub_self r2.body.data)

/-- Witness for `importWorkflow_errors_amended` at concrete responses. -/
theorem importWorkflow_errors_amended_witness :
    importWorkflow (ImportAnswer.response
        { status := 422, body := "bad", idField := none, nestedId := none })
      = Except.error (importRejectedMsg 422 "bad") :=
  (importWorkflow_errors_amended
    { status := 422, body := "bad", idField := none, nestedId := none }
    { status := 200, body := "resp", idField := none, nestedId := none }
    (by decide) (by decide) (by decide) (by decide)).1

/-! ## Orchestrator lemmas -/

/-- The trace of external calls one item produces; it depends only on the
item's environment, not on the counter state. -/
def itemTrace (env : ItemEnv) : List Event :=
  let category := getCategory env.workflowPath
  let filename := getScreenshotFilename env.workflowPath
  if env.existsResult then [Event.existsCheck category filename]
  else
    match env.parseResult with
    | Except.error _ => [Event.existsCheck category filename]
    | Except.ok _ =>
      match env.importResult with
      | Except.error _ => [Event.existsCheck category filename, Event.importCall]
      | Except.ok workflowId =>
        match env.captureResult with
        | Except.error _ =>
          [Event.existsCheck category filename, Event.importCall,
           Event.screenshotCall workflowId, Event.deleteCall workflowId]
        | Except.ok _ =>
          match env.saveResult with
          | Except.error _ =>
            [Event.existsCheck category filename, Event.importCall,
             Event.screenshotCall workflowId, Event.deleteCall workflowId]
          | Except.ok _ =>
            [Event.existsCheck category filename, Event.importCall,
             Event.screenshotCall workflowId, Event.uploadCall category filename,
             Event.deleteCall workflowId]

/-- Recognizer for `deleteWorkflow` invocations in a trace. -/
def isDeleteEvent : Event → Bool
  | Event.deleteCall _ => true
  | Event.existsCheck _ _ => false
  | Event.importCall => false
  | Event.screenshotCall _ => false
  | Event.uploadCall _ _ => false

/-- Recognizer for the three pipeline calls `importWorkflow`,
`takeScreenshot`, `uploadToGitHub`. -/
def isPipelineCall : Event → Bool
  | Event.deleteCall _ => false
  | Event.existsCheck _ _ => false
  | Event.importCall => true
  | Event.screenshotCall _ => true
  | Event.uploadCall _ _ => true

/-- State effect of one item: skip increments only `skipped`; a pipeline
error runs the `catch` and `finally` blocks; success runs the success path
and the `finally` block. -/
theorem processWorkflow_state (env : ItemEnv) (st : St) :
    (processWorkflow env st).1
      = if env.existsResult then { st with skipped := st.skipped + 1 }
        else
          match itemError env with
          | some m => finishSt (failSt st (jsBasename env.workflowPath) m)
          | none => finishSt { st with succeeded := st.succeeded + 1 } := by
  cases hex : env.existsResult with
  | true => simp [processWorkflow, hex]
  | false =>
    cases hp : env.parseResult with
    | error m => simp [processWorkflow, itemError, hex, hp]
    | ok _ =>
      cases hi : env.importResult with
      | error m => simp [processWorkflow, itemError, hex, hp, hi]
      | ok wid =>
        cases hc : env.captureResult with
        | error m => simp [processWorkflow, itemError, hex, hp, hi, hc]
        | ok _ =>
          cases hs : env.saveResult with
          | error m => simp [processWorkflow, itemError, hex, hp, hi, hc, hs]
          | ok _ =>
            cases hu : env.uploadResult with
            | error m => simp [processWorkflow, itemError, hex, hp, hi, hc, hs, hu]
            | ok u => simp [processWorkflow, itemError, hex, hp, hi, hc, hs, hu]

/-- The trace produced by `processWorkflow` is `itemTrace` of the item's
environment, independently of the counter state. -/
theorem processWorkflow_trace (env : ItemEnv) (st : St) :
    (processWorkflow env st).2.1 = itemTrace env := by
  cases hex : env.existsResult with
  | true => simp [processWorkflow, itemTrace, hex]
  | false =>
    cases hp : env.parseResult with
    | error m => simp [processWorkflow, itemTrace, hex, hp]
    | ok _ =>
      cases hi : env.importResult with
      | error m => simp [processWorkflow, itemTrace, hex, hp, hi]
      | ok wid =>
        cases hc : env.captureResult with
        | error m => simp [processWorkflow, itemTrace, hex, hp, hi, hc]
        | ok _ =>
          cases hs : env.saveResult with
          | error m => simp [processWorkflow, itemTrace, hex, hp, hi, hc, hs]
          | ok _ =>
            cases hu : env.uploadResult with
            | error m => simp [processWorkflow, itemTrace, hex, hp, hi, hc, hs, hu]
            | ok u => simp [processWorkflow, itemTrace, hex, hp, hi, hc, hs, hu]

/-- Per-item counter arithmetic of `processWorkflow`. -/
theorem processWorkflow_counters (env : ItemEnv) (st : St) :
    (processWorkflow env st).1.total = st.total
    ∧ (processWorkflow env st).1.processed
        = st.processed + (if env.existsResult then 0 else 1)
    ∧ (processWorkflow env st).1.skipped
        = st.skipped + (if env.existsResult then 1 else 0)
    ∧ (processWorkflow env st).1.succeeded + (processWorkflow env st).1.failed
        = st.succeeded + st.failed + (if env.existsResult then 0 else 1) := by
  rw [processWorkflow_state]
  cases hex : env.existsResult with
  | true => simp
  | false =>
    cases hie : itemError env with
    | none =>
      simp [finishSt, failSt]
      omega
    | some m =>
      simp [finishSt, failSt]
      omega

/-- Counter arithmetic of a whole run, from any starting state. -/
theorem runItems_counters (envs : List ItemEnv) : ∀ st : St,
    (runItems envs st).1.total = st.total
    ∧ (runItems envs st).1.processed + (runItems envs st).1.skipped
        = st.processed + st.skipped + envs.length
    ∧ (runItems envs st).1.succeeded + (runItems envs st).1.failed + st.processed
        = st.succeeded + st.failed + (runItems envs st).1.processed := by
  induction envs with
  | nil => intro st; exact ⟨rfl, by simp [runItems], by simp [runItems]⟩
  | cons e rest ih =>
    intro st
    obtain ⟨a1, a2, a3, a4⟩ := processWorkflow_counters e st
    obtain ⟨b1, b2, b3⟩ := ih ((processWorkflow e st).1)
    have hrun : (runItems (e :: rest) st).1 = (runItems rest ((processWorkflow e st).1)).1 := rfl
    rw [hrun, List.length_cons]
    cases hex : e.existsResult with
    | true =>
      rw [hex] at a2 a3 a4
      simp at a2 a3 a4
      refine ⟨by rw [b1, a1], by omega, by omega⟩
    | false =>
      rw [hex] at a2 a3 a4
      simp at a2 a3 a4
      refine ⟨by rw [b1, a1], by omega, by omega⟩

/-- The trace of a run is the concatenation, in discovery order, of each
item's trace: every item is processed exactly once and never retried. -/
theorem runItems_trace (envs : List ItemEnv) : ∀ st : St,
    (runItems envs st).2.1 = (envs.map itemTrace).flatten := by
  induction envs with
  | nil => intro st; rfl
  | cons e rest ih =>
    intro st
    have hrun : (runItems (e :: rest) st).2.1
        = (processWorkflow e st).2.1 ++ (runItems rest ((processWorkflow e st).1)).2.1 := rfl
    rw [hrun, processWorkflow_trace, ih]
    rfl

/-- C1: when an item's import returns a remote identifier, the item's own
trace contains exactly one `deleteWorkflow` call, it carries that
identifier, it is the last call of the item, and the run's trace places the
whole item trace before the following items' calls — so the remote handle
never outlives its processing iteration, on every exit path after import. -/
theorem processWorkflow_delete_exactly_once (env : ItemEnv) (rest : List ItemEnv) (st : St)
    (wid : String)
    (h1 : env.existsResult = false) (h2 : env.parseResult = Except.ok ())
    (h3 : env.importResult = Except.ok wid) :
    (processWorkflow env st).2.1.filter isDeleteEvent = [Event.deleteCall wid]
    ∧ (processWorkflow env st).2.1.getLast? = some (Event.deleteCall wid)
    ∧ (runItems (env :: rest) st).2.1
        = (processWorkflow env st).2.1 ++ (runItems rest ((processWorkflow env st).1)).2.1 := by
  refine ⟨?_, ?_, rfl⟩ <;>
  · rw [processWorkflow_trace]
    cases hc : env.captureResult with
    | error m => simp [itemTrace, h1, h2, h3, hc, isDeleteEvent]
    | ok _ =>
      cases hs : env.saveResult with
      | error m => simp [itemTrace, h1, h2, h3, hc, hs, isDeleteEvent]
      | ok _ =>
        cases hu : env.uploadResult with
        | error m => simp [itemTrace, h1, h2, h3, hc, hs, hu, isDeleteEvent]
        | ok u => simp [itemTrace, h1, h2, h3, hc, hs, hu, isDeleteEvent]

/-- Witness for `processWorkflow_delete_exactly_once`: a concrete item whose
capture fails still deletes its imported workflow exactly once. -/
theorem processWorkflow_delete_exactly_once_witness :
    (processWorkflow
        { workflowPath := "a.json", existsResult := false, parseResult := Except.ok (),
          importResult := Except.ok "42", captureResult := Except.error "no canvas",
          saveResult := Except.ok (), uploadResult := Except.ok "u" }
        (initSt 1)).2.1.filter isDeleteEvent = [Event.deleteCall "42"] :=
  (processWorkflow_delete_exactly_once
    { workflowPath := "a.json", existsResult := false, parseResult := Except.ok (),
      importResult := Except.ok "42", captureResult := Except.error "no canvas",
      saveResult := Except.ok (), uploadResult := Except.ok "u" }
    [] (initSt 1) "42" rfl rfl rfl).1

/-- An item the existence check skips: only `skipped` grows. -/
def skipOnlyEnv : ItemEnv :=
  { workflowPath := "Slack/a.json", existsResult := true, parseResult := Except.ok (),
    importResult := Except.ok "1", captureResult := Except.ok (),
    saveResult := Except.ok (), uploadResult := Except.ok "u" }

/-- C2 counterexample: a run whose single item is skipped ends with
`succeeded + failed + skipped = 1` but `processed = 0`, and with
`processed ≠ total` — a skipped item does not increment `processed`,
because the skip path returns before the `try`/`finally` block. -/
theorem state_invariant_counterexample :
    ¬((runItems [skipOnlyEnv] (initSt 1)).1.succeeded
        + (runItems [skipOnlyEnv] (initSt 1)).1.failed
        + (runItems [skipOnlyEnv] (initSt 1)).1.skipped
      = (runItems [skipOnlyEnv] (initSt 1)).1.processed)
    ∧ (runItems [skipOnlyEnv] (initSt 1)).1.processed
        ≠ (runItems [skipOnlyEnv] (initSt 1)).1.total := by
  refine ⟨by decide, by decide⟩

/-- C2 (amended): at every point of a run `succeeded + failed = processed`,
`processed + skipped` equals the number of items handled so far, and
`processed + skipped ≤ total`; at run end `processed + skipped = total`.
Items that succeed or fail increment `processed` by one; skipped items
increment only `skipped`. -/
theorem state_invariant_amended (envs : List ItemEnv) (k : Nat) :
    (runItems (envs.take k) (initSt envs.length)).1.succeeded
        + (runItems (envs.take k) (initSt envs.length)).1.failed
      = (runItems (envs.take k) (initSt envs.length)).1.processed
    ∧ (runItems (envs.take k) (initSt envs.length)).1.processed
        + (runItems (envs.take k) (initSt envs.length)).1.skipped = min k envs.length
    ∧ (runItems (envs.take k) (initSt envs.length)).1.processed
        + (runItems (envs.take k) (initSt envs.length)).1.skipped
        ≤ (runItems (envs.take k) (initSt envs.length)).1.total
    ∧ (runItems envs (initSt envs.length)).1.processed
        + (runItems envs (initSt envs.length)).1.skipped = envs.length := by
  obtain ⟨t1, t2, t3⟩ := runItems_counters (envs.take k) (initSt envs.length)
  obtain ⟨u1, u2, u3⟩ := runItems_counters envs (initSt envs.length)
  rw [show (initSt envs.length).total = envs.length from rfl] at t1 u1
  rw [show (initSt envs.length).processed = 0 from rfl,
      show (initSt envs.length).skipped = 0 from rfl] at t2 u2
  rw [show (initSt envs.length).processed = 0 from rfl,
      show (initSt envs.length).succeeded = 0 from rfl,
      show (initSt envs.length).failed = 0 from rfl] at t3 u3
  have hlen : (envs.take k).length = min k envs.length := List.length_take k envs
  refine ⟨by omega, by omega, by omega, by omega⟩

/-- C4: when the existence check reports true, the item is recorded as
skipped and its trace contains none of the import, capture, or upload
calls — only the existence check itself. -/
theorem processWorkflow_skip_no_calls (env : ItemEnv) (st : St)
    (h : env.existsResult = true) :
    (processWorkflow env st).1 = { st with skipped := st.skipped + 1 }
    ∧ (processWorkflow env st).2.1
        = [Event.existsCheck (getCategory env.workflowPath)
            (getScreenshotFilename env.workflowPath)]
    ∧ (processWorkflow env st).2.2 = none
    ∧ (processWorkflow env st).2.1.filter isPipelineCall = [] := by
  refine ⟨?_, ?_, ?_, ?_⟩ <;> simp [processWorkflow, h, isPipelineCall]

/-- Witness for `processWorkflow_skip_no_calls` at a concrete skipped item. -/
theorem processWorkflow_skip_no_calls_witness :
    (processWorkflow skipOnlyEnv (initSt 1)).2.1.filter isPipelineCall = [] :=
  (processWorkflow_skip_no_calls skipOnlyEnv (initSt 1) rfl).2.2.2

/-- C6: a pipeline error of one item is caught at the item boundary — the
item counts as failed, the (item, error message) pair is appended, no
result is returned — and the orchestrator continues: the final state of the
run is obtained by processing the remaining items from the post-item state,
and the run's trace is every item's trace exactly once, in discovery
order. -/
theorem processWorkflow_failure_isolated (env : ItemEnv) (rest : List ItemEnv) (st : St)
    (msg : String)
    (h1 : env.existsResult = false) (h2 : itemError env = some msg) :
    (processWorkflow env st).1
      = { st with failed := st.failed + 1,
                  errors := st.errors ++ [(jsBasename env.workflowPath, msg)],
                  processed := st.processed + 1 }
    ∧ (processWorkflow env st).2.2 = none
    ∧ (runItems (env :: rest) st).1 = (runItems rest ((processWorkflow env st).1)).1
    ∧ (runItems (env :: rest) st).2.1
        = itemTrace env ++ (rest.map itemTrace).flatten := by
  refine ⟨?_, ?_, rfl, ?_⟩
  · rw [processWorkflow_state, h2]
    simp [h1, finishSt, failSt]
  · cases hp : env.parseResult with
    | error m => simp [processWorkflow, h1, hp]
    | ok _ =>
      cases hi : env.importResult with
      | error m => simp [processWorkflow, h1, hp, hi]
      | ok wid =>
        cases hc : env.captureResult with
        | error m => simp [processWorkflow, h1, hp, hi, hc]
        | ok _ =>
          cases hs : env.saveResult with
          | error m => simp [processWorkflow, h1, hp, hi, hc, hs]
          | ok _ =>
            cases hu : env.uploadResult with
            | error m => simp [processWorkflow, h1, hp, hi, hc, hs, hu]
            | ok u => simp [itemError, hp, hi, hc, hs, hu] at h2
  · have hrun : (runItems (env :: rest) st).2.1
        = (processWorkflow env st).2.1 ++ (runItems rest ((processWorkflow env st).1)).2.1 := rfl
    rw [hrun, processWorkflow_trace, runItems_trace]

/-- Witness for `processWorkflow_failure_isolated`: a concrete item with a
failing import call is recorded and the run goes on. -/
theorem processWorkflow_failure_isolated_witness :
    (processWorkflow
        { workflowPath := "w.json", existsResult := false, parseResult := Except.ok (),
          importResult := Except.error "engine down", captureResult := Except.ok (),
          saveResult := Except.ok (), uploadResult := Except.ok "u" }
        (initSt 2)).1
      = { initSt 2 with failed := 1, errors := [("w.json", "engine down")], processed := 1 } := by
  have h := (processWorkflow_failure_isolated
    { workflowPath := "w.json", existsResult := false, parseResult := Except.ok (),
      importResult := Except.error "engine down", captureResult := Except.ok (),
      saveResult := Except.ok (), uploadResult := Except.ok "u" }
    [] (initSt 2) "engine down" rfl rfl).1
  rw [h]
  decide

/-- C5 counterexample: with zero discovered items the run returns before the
report-writing step, so no report file is written at all. -/
theorem mainRun_zero_items_counterexample : mainRun [] = none := rfl

/-- C5 (amended): whenever at least one item is discovered, the report file
is written at run end regardless of outcomes — even when every item fails —
and it carries the run's final counters, result records, and error list;
with zero items the run exits cleanly but writes no report. -/
theorem mainRun_report_amended (envs : List ItemEnv) (h : envs ≠ []) :
    mainRun envs
      = some { stats := { total := envs.length,
                          succeeded := (runItems envs (initSt envs.length)).1.succeeded,
                          failed := (runItems envs (initSt envs.length)).1.failed,
                          skipped := (runItems envs (initSt envs.length)).1.skipped },
               screenshots := (runItems envs (initSt envs.length)).2.2,
               errors := (runItems envs (initSt envs.length)).1.errors } := by
  have hne : envs.length ≠ 0 := fun hh => h (List.length_eq_zero.mp hh)
  have hbeq : (envs.length == 0) = false := by simp [hne]
  have htotal : (runItems envs (initSt envs.length)).1.total = envs.length := by
    have := (runItems_counters envs (initSt envs.length)).1
    simpa [initSt] using this
  unfold mainRun
  rw [hbeq]
  simp only [Bool.false_eq_true, if_false]
  rw [htotal]

/-- Witness for `mainRun_report_amended`: a run whose only item fails still
writes a report. -/
theorem mainRun_report_amended_witness :
    (mainRun
      [{ workflowPath := "w.json", existsResult := false, parseResult := Except.ok (),
         importResult := Except.error "engine down", captureResult := Except.ok (),
         saveResult := Except.ok (), uploadResult := Except.ok "u" }]).isSome = true := by
  rw [mainRun_report_amended
    [{ workflowPath := "w.json", existsResult := false, parseResult := Except.ok (),
       importResult := Except.error "engine down", captureResult := Except.ok (),
       saveResult := Except.ok (), uploadResult := Except.ok "u" }]
    (by simp)]
  rfl

end Screenshots

